import Mathlib

/-!
Verification of the Air Mouse frontend client core: the WebSocket
dispatcher and telemetry store (frontend/src/hooks/useWebSocket.ts),
the session stage data (frontend/src/types/index.ts), and the approval
gate (FaceReportOverlay together with the App-level decision handlers
handleApprove / handleRetry in frontend/src/App.tsx).

The TypeScript source is shallowly embedded: React state becomes a
record, each event handler becomes a pure state-transformer, and the
timer-driven approval gate becomes a discrete-event run over pending
timeouts merged with externally scheduled events (key presses,
component teardown).
-/

namespace AirMouse

/-! ## Data model (types/websocket.ts, types/index.ts) -/

/-- GestureType from types/websocket.ts. -/
inductive GestureType
  | none
  | click
  | drag
  | zoom
  | swipe_left
  | swipe_right
  | palm_open
deriving DecidableEq, Repr

/-- ConnectionState from types/websocket.ts. -/
inductive ConnectionState
  | disconnected
  | connecting
  | connected
  | error
deriving DecidableEq, Repr

/-- HandLandmark from types/websocket.ts: MediaPipe index plus
normalized coordinates. Coordinates are modelled as rationals. -/
structure HandLandmark where
  id : Nat
  x : ℚ
  y : ℚ
deriving DecidableEq, Repr

/-- Distance status enum carried on face_data messages. -/
inductive DistanceStatus
  | WAIT
  | PERFECT
  | TOO_CLOSE
  | TOO_FAR
  | BAD_POSE
deriving DecidableEq, Repr

/-- One per-metric entry of a scan report (score and raw value). -/
structure MetricDetail where
  score : ℚ
  val : ℚ
deriving DecidableEq, Repr

/-- face_results payload of a face_data message in REPORT state:
aggregate score, rank letter, per-metric details (the TS Record is
modelled as an association list). -/
structure FaceResults where
  total : ℚ
  rank : String
  details : List (String × MetricDetail)
deriving DecidableEq, Repr

/-- The FaceData record stored by useWebSocket on a face_data message. -/
structure FaceData where
  state : String
  status : DistanceStatus
  distanceRatio : ℚ
  targetRatio : ℚ
  faceResults : Option FaceResults
deriving DecidableEq, Repr

/-- Inbound frames after JSON parsing, discriminated by the type tag.
The `other` constructor stands for any frame whose tag is neither
hand_data nor face_data (e.g. an echoed config or an unknown tag); such
a frame may still carry an image field, which the dispatcher inspects
before discriminating on the tag. -/
inductive WebSocketMessage
  | hand_data (image : Option String) (landmarks : List HandLandmark)
      (gesture : GestureType) (mouse_position : ℚ × ℚ)
      (is_palm_open : Bool) (fps : ℚ) (timestamp : ℚ)
  | face_data (image : Option String) (state : String)
      (status : DistanceStatus) (distance_ratio : ℚ) (target_ratio : ℚ)
      (face_results : Option FaceResults) (fps : ℚ)
  | other (image : Option String)
deriving DecidableEq, Repr

/-- readyState of a browser WebSocket handle. -/
inductive ReadyState
  | CONNECTING
  | OPEN
  | CLOSING
  | CLOSED
deriving DecidableEq, Repr

/-- The transport handle held in wsRef. -/
structure WSHandle where
  readyState : ReadyState
deriving DecidableEq, Repr

/-- The client state owned by useWebSocket: each useState hook becomes a
field, wsRef becomes an optional handle, and parseErrors counts the
console.error calls of the catch branch of ws.onmessage (the log of a
discarded unparseable frame). -/
structure HookState where
  connectionState : ConnectionState
  landmarks : List HandLandmark
  gesture : GestureType
  mousePosition : ℚ × ℚ
  faceData : Option FaceData
  currentImage : Option String
  fps : ℚ
  error : Option String
  wsRef : Option WSHandle
  parseErrors : Nat
deriving DecidableEq, Repr

/-- Initial hook state: the useState initial values of useWebSocket. -/
def initialHookState : HookState :=
  { connectionState := .disconnected
    landmarks := []
    gesture := .none
    mousePosition := (0, 0)
    faceData := Option.none
    currentImage := Option.none
    fps := 0
    error := Option.none
    wsRef := Option.none
    parseErrors := 0 }

/-! ## Dispatcher (ws.onmessage in useWebSocket.ts) -/

/-- The image field of an inbound message, whatever its tag. -/
def imageOf : WebSocketMessage → Option String
  | .hand_data img _ _ _ _ _ _ => img
  | .face_data img _ _ _ _ _ _ => img
  | .other img => img

/-- The image pass-through at the top of ws.onmessage: when the frame
has an image field and it is truthy (a non-empty string), currentImage
is set to the data URL built from it. Runs before tag discrimination. -/
def applyImage (s : HookState) : Option String → HookState
  | Option.none => s
  | some i =>
      if i = "" then s
      else { s with currentImage := some (String.append "data:image/jpeg;base64," i) }

/-- ws.onmessage: a frame that fails JSON.parse (modelled as
Option.none) is caught and logged, leaving the rest of the state
untouched; otherwise the image pass-through runs, then the tag
dispatch: hand_data stores landmarks/gesture/mouse/fps and clears
faceData; face_data stores the face record and fps and clears
landmarks, resetting gesture to none; any other tag falls through. -/
def onmessage (s : HookState) : Option WebSocketMessage → HookState
  | Option.none => { s with parseErrors := s.parseErrors + 1 }
  | some message =>
      let s1 := applyImage s (imageOf message)
      match message with
      | .hand_data _ lms g mp _ fps _ =>
          { s1 with landmarks := lms, gesture := g, mousePosition := mp,
                    fps := fps, faceData := Option.none }
      | .face_data _ st status dr tr fr fps =>
          { s1 with faceData := some ⟨st, status, dr, tr, fr⟩, fps := fps,
                    landmarks := [], gesture := .none }
      | .other _ => s1

/-- connect(): a no-op when the current handle is OPEN or CONNECTING;
otherwise sets connectionState to connecting, clears the error, and
installs a fresh handle in the CONNECTING state. -/
def connect (s : HookState) : HookState :=
  match s.wsRef with
  | some h =>
      if h.readyState = .OPEN ∨ h.readyState = .CONNECTING then s
      else { s with connectionState := .connecting, error := Option.none,
                    wsRef := some ⟨.CONNECTING⟩ }
  | Option.none =>
      { s with connectionState := .connecting, error := Option.none,
               wsRef := some ⟨.CONNECTING⟩ }

/-- disconnect(): closes and clears the handle when present, otherwise
does nothing. The local reference is cleared immediately, independent
of when the close event is observed. -/
def disconnect (s : HookState) : HookState :=
  match s.wsRef with
  | some _ => { s with wsRef := Option.none }
  | Option.none => s

/-- Mutual exclusion of the two telemetry kinds: a stored face record
and a non-empty landmark list are never displayed together. -/
def telemetryExclusive (s : HookState) : Prop :=
  s.faceData = Option.none ∨ s.landmarks = []

instance (s : HookState) : Decidable (telemetryExclusive s) := by
  unfold telemetryExclusive; infer_instance

/-- Folding a list of inbound frames through the dispatcher. -/
def runFrames (frames : List (Option WebSocketMessage)) : HookState :=
  frames.foldl onmessage initialHookState

/-! ## Session stage (types/index.ts AppStage) -/

/-- AppStage from types/index.ts. -/
inductive AppStage
  | BOOT_SEQUENCE
  | FACE_SCANNING
  | FACE_ANALYZING
  | FACE_REPORT
  | ACTIVE_MODE
  | CALIBRATING
  | CALIBRATION_COMPLETE
deriving DecidableEq, Repr

/-! ## Approval gate (FaceReportOverlay plus the App decision handlers)

The overlay mounts with status `checking`; its mount effect runs
checkResult, which schedules one 3000 ms timeout whose callback is
handleSuccess when total ≥ PASS_SCORE and handleFail otherwise, and
attaches a window keydown listener (Shift+Enter forces handleSuccess).
handleSuccess / handleFail set the status, play the matching cue, and
schedule the decision call (onApprove / onRetry, i.e. App.handleApprove
/ App.handleRetry) after a further 3000 ms. None of these setTimeout
handles is stored or cleared anywhere; the effect cleanup removes only
the keydown listener. handleApprove posts {approved:true} and sets no
stage; handleRetry posts {approved:false} and, only after that call
resolves, sets the stage to FACE_SCANNING.

The embedding is a discrete-event run: the state carries the pending
timeouts (absolute fire time plus callback); external events (keydown,
teardown) arrive on a time-ordered queue; the run repeatedly executes
the earliest due item up to an observation time. -/

/-- GateStatus: the overlay's status useState. -/
inductive GateStatus
  | checking
  | success
  | failed
deriving DecidableEq, Repr

/-- The callback held by a pending setTimeout of the gate. -/
inductive TimerAction
  | success
  | fail
  | approveCall
  | retryCall
deriving DecidableEq, Repr

/-- A pending setTimeout: absolute fire time (ms) and callback. -/
structure PendingTimer where
  time : Nat
  action : TimerAction
deriving DecidableEq, Repr

/-- Externally scheduled events during one gate cycle: a window keydown
(with its shiftKey flag and key string) or the teardown of the overlay
(which runs the effect cleanup). -/
inductive ExtEvent
  | keydown (shiftKey : Bool) (key : String)
  | unmount
deriving DecidableEq, Repr

/-- State of one gate cycle: the overlay status, the pending timeouts,
how often each audio cue was played, the decisions posted to the
approve endpoint in order, the count of logged decision-call failures,
the App stage with the log of setStage calls, and whether the keydown
listener is still attached. -/
structure GateState where
  status : GateStatus
  pending : List PendingTimer
  successCues : Nat
  failCues : Nat
  decisions : List Bool
  decisionFailures : Nat
  stage : AppStage
  stageLog : List AppStage
  listenerAttached : Bool
deriving DecidableEq, Repr

/-- The score threshold PASS_SCORE of FaceReportOverlay. -/
def PASS_SCORE : ℚ := 70

/-- setTimeout: append a pending timer firing at the given absolute
time (JS timers with equal deadlines fire in scheduling order, matched
here by appending and popping first-in-first-out among ties). -/
def setTimeoutAt (s : GateState) (time : Nat) (a : TimerAction) : GateState :=
  { s with pending := s.pending ++ [⟨time, a⟩] }

/-- App.setStage: record the new stage. -/
def setStage (st : AppStage) (s : GateState) : GateState :=
  { s with stage := st, stageLog := s.stageLog ++ [st] }

/-- App.handleApprove: POST {approved:true}; on failure log it. No
setStage call appears on this path. -/
def handleApprove (netOk : Bool) (s : GateState) : GateState :=
  let s1 := { s with decisions := s.decisions ++ [true] }
  if netOk then s1 else { s1 with decisionFailures := s1.decisionFailures + 1 }

/-- App.handleRetry: POST {approved:false}; only when the awaited call
succeeds, setStage(FACE_SCANNING); on failure log it (the setStage
after the await is skipped). -/
def handleRetry (netOk : Bool) (s : GateState) : GateState :=
  let s1 := { s with decisions := s.decisions ++ [false] }
  if netOk then setStage .FACE_SCANNING s1
  else { s1 with decisionFailures := s1.decisionFailures + 1 }

/-- FaceReportOverlay.handleSuccess at time `now`: status := success,
play the success cue, schedule onApprove 3000 ms later. -/
def handleSuccess (now : Nat) (s : GateState) : GateState :=
  setTimeoutAt
    { s with status := .success, successCues := s.successCues + 1 }
    (now + 3000) .approveCall

/-- FaceReportOverlay.handleFail at time `now`: status := failed, play
the failure cue, schedule onRetry 3000 ms later. -/
def handleFail (now : Nat) (s : GateState) : GateState :=
  setTimeoutAt
    { s with status := .failed, failCues := s.failCues + 1 }
    (now + 3000) .retryCall

/-- FaceReportOverlay.checkResult, run at mount (time 0): schedule the
3000 ms classification timeout, handleSuccess when total ≥ PASS_SCORE
and handleFail otherwise. -/
def checkResult (total : ℚ) (s : GateState) : GateState :=
  if PASS_SCORE ≤ total then setTimeoutAt s 3000 .success
  else setTimeoutAt s 3000 .fail

/-- FaceReportOverlay.handleKeyDown: Shift+Enter forces handleSuccess,
regardless of score or current status. -/
def handleKeyDown (shiftKey : Bool) (key : String) (now : Nat)
    (s : GateState) : GateState :=
  if shiftKey ∧ key = "Enter" then handleSuccess now s else s

/-- Firing one pending timeout at its due time. -/
def fireTimer (netOk : Bool) (now : Nat) : TimerAction → GateState → GateState
  | .success, s => handleSuccess now s
  | .fail, s => handleFail now s
  | .approveCall, s => handleApprove netOk s
  | .retryCall, s => handleRetry netOk s

/-- Delivering one external event: a keydown reaches the handler only
while the listener is attached; teardown runs the effect cleanup, which
removes the keydown listener and nothing else (no clearTimeout). -/
def extStep (now : Nat) : ExtEvent → GateState → GateState
  | .keydown sh k, s =>
      if s.listenerAttached then handleKeyDown sh k now s else s
  | .unmount, s => { s with listenerAttached := false }

/-- Pop the earliest pending timeout, first-in-first-out among equal
deadlines. -/
def popEarliest : List PendingTimer → Option (PendingTimer × List PendingTimer)
  | [] => Option.none
  | t :: ts =>
      match popEarliest ts with
      | Option.none => some (t, [])
      | some (u, rest) =>
          if t.time ≤ u.time then some (t, ts) else some (u, t :: rest)

/-- Discrete-event run of one gate cycle: execute, in time order, every
pending timeout and queued external event due no later than `upTo`
(ties between a timeout and an external event go to the timeout). The
external queue is assumed time-ordered. Fuel bounds the recursion; each
executed item can schedule at most one new timeout. -/
def runGate (netOk : Bool) : Nat → List (Nat × ExtEvent) → Nat → GateState → GateState
  | 0, _, _, s => s
  | fuel + 1, exts, upTo, s =>
      match popEarliest s.pending, exts with
      | Option.none, [] => s
      | some (t, rest), [] =>
          if t.time ≤ upTo then
            runGate netOk fuel [] upTo
              (fireTimer netOk t.time t.action { s with pending := rest })
          else s
      | Option.none, (te, e) :: es =>
          if te ≤ upTo then runGate netOk fuel es upTo (extStep te e s) else s
      | some (t, rest), (te, e) :: es =>
          if t.time ≤ te then
            if t.time ≤ upTo then
              runGate netOk fuel ((te, e) :: es) upTo
                (fireTimer netOk t.time t.action { s with pending := rest })
            else s
          else
            if te ≤ upTo then
              runGate netOk fuel es upTo (extStep te e s)
            else s

/-- The gate state right after the overlay mounts for one report with
aggregate score `total`: status checking, stage FACE_REPORT, listener
attached, and checkResult already run (the mount effect runs it
immediately). -/
def gateInit (total : ℚ) : GateState :=
  checkResult total
    { status := .checking
      pending := []
      successCues := 0
      failCues := 0
      decisions := []
      decisionFailures := 0
      stage := .FACE_REPORT
      stageLog := []
      listenerAttached := true }

/-- One gate cycle for a report with score `total`, network outcome
`netOk` for the decision calls, external events `exts` (time-ordered),
observed at time `upTo`. -/
def gateExec (total : ℚ) (netOk : Bool) (exts : List (Nat × ExtEvent))
    (upTo : Nat) : GateState :=
  runGate netOk (2 * exts.length + 8) exts upTo (gateInit total)

/-- The freshly mounted gate state for a passing score: only the
handleSuccess classification timeout at 3000 ms is pending. -/
def gateReadyPass : GateState :=
  { status := .checking
    pending := [⟨3000, .success⟩]
    successCues := 0
    failCues := 0
    decisions := []
    decisionFailures := 0
    stage := .FACE_REPORT
    stageLog := []
    listenerAttached := true }

/-- The freshly mounted gate state for a failing score: only the
handleFail classification timeout at 3000 ms is pending. -/
def gateReadyFail : GateState :=
  { status := .checking
    pending := [⟨3000, .fail⟩]
    successCues := 0
    failCues := 0
    decisions := []
    decisionFailures := 0
    stage := .FACE_REPORT
    stageLog := []
    listenerAttached := true }

/-! ## Helper lemmas -/

/-- The image pass-through touches only currentImage. -/
lemma applyImage_preserves (s : HookState) (img : Option String) :
    (applyImage s img).landmarks = s.landmarks ∧
    (applyImage s img).faceData = s.faceData ∧
    (applyImage s img).gesture = s.gesture ∧
    (applyImage s img).connectionState = s.connectionState ∧
    (applyImage s img).mousePosition = s.mousePosition ∧
    (applyImage s img).fps = s.fps ∧
    (applyImage s img).error = s.error ∧
    (applyImage s img).wsRef = s.wsRef ∧
    (applyImage s img).parseErrors = s.parseErrors := by
  cases img with
  | none => exact ⟨rfl, rfl, rfl, rfl, rfl, rfl, rfl, rfl, rfl⟩
  | some i => by_cases hi : i = "" <;> simp [applyImage, hi]

/-- One dispatcher step preserves telemetry mutual exclusion. -/
lemma telemetryExclusive_step (s : HookState) (frame : Option WebSocketMessage)
    (hs : telemetryExclusive s) : telemetryExclusive (onmessage s frame) := by
  cases frame with
  | none => exact hs
  | some m =>
      cases m with
      | hand_data img lms g mp p fps ts => exact Or.inl rfl
      | face_data img st stt dr tr fr fps => exact Or.inr rfl
      | other img =>
          have hp := applyImage_preserves s img
          cases hs with
          | inl h => exact Or.inl (hp.2.1.trans h)
          | inr h => exact Or.inr (hp.1.trans h)

/-- Folding the dispatcher preserves telemetry mutual exclusion. -/
lemma telemetryExclusive_foldl (frames : List (Option WebSocketMessage)) :
    ∀ s, telemetryExclusive s →
      telemetryExclusive (frames.foldl onmessage s) := by
  induction frames with
  | nil => exact fun s hs => hs
  | cons f fs ih => exact fun s hs => ih _ (telemetryExclusive_step s f hs)

/-- A gate run out of external events whose earliest pending timeout is
not yet due does nothing. -/
lemma runGate_not_due (netOk : Bool) (fuel upTo : Nat) (s : GateState)
    (t : PendingTimer) (rest : List PendingTimer)
    (hpop : popEarliest s.pending = some (t, rest))
    (hnd : ¬ t.time ≤ upTo) :
    runGate netOk (fuel + 1) [] upTo s = s := by
  rw [runGate.eq_def]
  simp only [Nat.add_one, hpop]
  simp [hnd]

/-- With a passing score, mounting the gate schedules exactly the
handleSuccess classification timeout at 3000 ms. -/
lemma gateInit_pass (total : ℚ) (h : PASS_SCORE ≤ total) :
    gateInit total = gateReadyPass := by
  simp [gateInit, checkResult, setTimeoutAt, gateReadyPass, if_pos h]

/-- With a failing score, mounting the gate schedules exactly the
handleFail classification timeout at 3000 ms. -/
lemma gateInit_fail (total : ℚ) (h : total < PASS_SCORE) :
    gateInit total = gateReadyFail := by
  simp [gateInit, checkResult, setTimeoutAt, gateReadyFail, if_neg (not_le.mpr h)]

/-! ## Claim theorems -/

/-- C1 (counterexample): at score 85 with threshold 70 the natural gate
run does send exactly one approved:true decision after the two holds,
but the stage never becomes ACTIVE_MODE: handleApprove performs no
setStage call, so the claim that the stage becomes ACTIVE_MODE exactly
once fails at this concrete input. -/
theorem gate_pass_no_active_mode_cex :
    (gateExec 85 true [] 10000).decisions = [true] ∧
    (gateExec 85 true [] 10000).successCues = 1 ∧
    (gateExec 85 true [] 10000).stageLog.count AppStage.ACTIVE_MODE = 0 ∧
    (gateExec 85 true [] 10000).stage ≠ AppStage.ACTIVE_MODE := by
  decide

/-- C1 (amended): for every report with aggregate score at or above the
threshold 70, the undisturbed gate run with the decision call
succeeding holds the report in checking for the full 3000 ms, reaches
success exactly at 3000 ms playing the success cue once, has sent
nothing at that point, and after the further 3000 ms hold has sent
exactly one approved:true decision — but it issues no stage transition:
the stage stays FACE_REPORT and the setStage log stays empty. -/
theorem gate_pass_flow (total : ℚ) (h : PASS_SCORE ≤ total) :
    (∀ t, t < 3000 → (gateExec total true [] t).status = .checking) ∧
    (gateExec total true [] 3000).status = .success ∧
    (gateExec total true [] 3000).successCues = 1 ∧
    (gateExec total true [] 3000).decisions = [] ∧
    (gateExec total true [] 10000).decisions = [true] ∧
    (gateExec total true [] 10000).successCues = 1 ∧
    (gateExec total true [] 10000).stage = .FACE_REPORT ∧
    (gateExec total true [] 10000).stageLog = [] := by
  constructor
  · intro t ht
    unfold gateExec
    rw [gateInit_pass total h]
    rw [show 2 * ([] : List (Nat × ExtEvent)).length + 8 = 7 + 1 from rfl]
    rw [runGate_not_due true 7 t gateReadyPass ⟨3000, .success⟩ [] rfl (by simp; omega)]
    rfl
  · unfold gateExec
    rw [gateInit_pass total h]
    decide

/-- C1 (witness): the amended passing-score flow at score 85. -/
theorem gate_pass_flow_witness :
    PASS_SCORE ≤ (85 : ℚ) ∧
    ((∀ t, t < 3000 → (gateExec 85 true [] t).status = .checking) ∧
     (gateExec 85 true [] 3000).status = .success ∧
     (gateExec 85 true [] 3000).successCues = 1 ∧
     (gateExec 85 true [] 3000).decisions = [] ∧
     (gateExec 85 true [] 10000).decisions = [true] ∧
     (gateExec 85 true [] 10000).successCues = 1 ∧
     (gateExec 85 true [] 10000).stage = .FACE_REPORT ∧
     (gateExec 85 true [] 10000).stageLog = []) :=
  ⟨by decide, gate_pass_flow 85 (by decide)⟩

/-- C2: for every report with aggregate score below the threshold 70,
the undisturbed gate run with the decision call succeeding stays in
checking through the 3000 ms hold, reaches failed, plays the failure
cue once, sends exactly one approved:false decision, and transitions
the stage to FACE_SCANNING. -/
theorem gate_fail_flow (total : ℚ) (h : total < PASS_SCORE) :
    (∀ t, t < 3000 → (gateExec total true [] t).status = .checking) ∧
    (gateExec total true [] 3000).status = .failed ∧
    (gateExec total true [] 3000).failCues = 1 ∧
    (gateExec total true [] 10000).decisions = [false] ∧
    (gateExec total true [] 10000).failCues = 1 ∧
    (gateExec total true [] 10000).stage = .FACE_SCANNING ∧
    (gateExec total true [] 10000).stageLog = [.FACE_SCANNING] := by
  constructor
  · intro t ht
    unfold gateExec
    rw [gateInit_fail total h]
    rw [show 2 * ([] : List (Nat × ExtEvent)).length + 8 = 7 + 1 from rfl]
    rw [runGate_not_due true 7 t gateReadyFail ⟨3000, .fail⟩ [] rfl (by simp; omega)]
    rfl
  · unfold gateExec
    rw [gateInit_fail total h]
    decide

/-- C2 (witness): the failing-score flow at score 40. -/
theorem gate_fail_flow_witness :
    (40 : ℚ) < PASS_SCORE ∧
    ((∀ t, t < 3000 → (gateExec 40 true [] t).status = .checking) ∧
     (gateExec 40 true [] 3000).status = .failed ∧
     (gateExec 40 true [] 3000).failCues = 1 ∧
     (gateExec 40 true [] 10000).decisions = [false] ∧
     (gateExec 40 true [] 10000).failCues = 1 ∧
     (gateExec 40 true [] 10000).stage = .FACE_SCANNING ∧
     (gateExec 40 true [] 10000).stageLog = [.FACE_SCANNING]) :=
  ⟨by decide, gate_fail_flow 40 (by decide)⟩

/-- C3 (counterexample): score 40, override key-chord at 1000 ms. The
override forces success, but the natural classification timeout is
never cancelled: it fires at 3000 ms as handleFail, and both scheduled
decision calls run — the report ends up with two outbound decisions,
approved:true followed by approved:false, refuting that at most one
decision is ever sent per report. -/
theorem override_double_decision_cex :
    (gateExec 40 true [(1000, .keydown true "Enter")] 1000).status =
      GateStatus.success ∧
    (gateExec 40 true [(1000, .keydown true "Enter")] 10000).decisions =
      [true, false] := by
  decide

/-- C3 (amended): a Shift+Enter override received while the gate is
checking forces status success immediately, regardless of score; but
the natural 3000 ms timer is not cancelled, so when the override races
it each trigger fires and schedules its own decision call: exactly two
outbound decisions are sent for the report, the first one
approved:true from the override. -/
theorem override_forces_success (total : ℚ) :
    (gateExec total true [(1000, .keydown true "Enter")] 1000).status =
      .success ∧
    (gateExec total true [(1000, .keydown true "Enter")] 1000).decisions = [] ∧
    (gateExec total true [(1000, .keydown true "Enter")] 10000).decisions.length = 2 ∧
    (gateExec total true [(1000, .keydown true "Enter")] 10000).decisions.head? =
      some true := by
  rcases le_or_lt PASS_SCORE total with h | h
  · unfold gateExec
    rw [gateInit_pass total h]
    decide
  · unfold gateExec
    rw [gateInit_fail total h]
    decide

/-- C4: every hand_data message clears the stored face record, every
face_data message empties the landmark list and resets the gesture to
none, and along any inbound frame sequence from the initial state the
two telemetry kinds are never displayed together. -/
theorem telemetry_mutual_exclusion :
    (∀ (s : HookState) img lms g mp p fps ts,
       (onmessage s (some (.hand_data img lms g mp p fps ts))).faceData =
         Option.none) ∧
    (∀ (s : HookState) img st stt dr tr fr fps,
       (onmessage s (some (.face_data img st stt dr tr fr fps))).landmarks = [] ∧
       (onmessage s (some (.face_data img st stt dr tr fr fps))).gesture =
         GestureType.none) ∧
    (∀ frames, telemetryExclusive (runFrames frames)) :=
  ⟨fun _ _ _ _ _ _ _ _ => rfl,
   fun _ _ _ _ _ _ _ _ => ⟨rfl, rfl⟩,
   fun frames => telemetryExclusive_foldl frames initialHookState (Or.inl rfl)⟩

/-- C5 (counterexample): a hand_data message carrying a single landmark
is neither discarded nor logged — the dispatcher stores the length-1
list verbatim, so the stored landmark list is not always of length 0 or
21. -/
theorem landmark_length_not_validated_cex :
    (onmessage initialHookState
        (some (.hand_data Option.none [⟨0, 0, 0⟩] .none (0, 0) false 0 0))).landmarks.length
      = 1 ∧
    ¬ ((onmessage initialHookState
          (some (.hand_data Option.none [⟨0, 0, 0⟩] .none (0, 0) false 0 0))).landmarks.length
        = 0 ∨
       (onmessage initialHookState
          (some (.hand_data Option.none [⟨0, 0, 0⟩] .none (0, 0) false 0 0))).landmarks.length
        = 21) ∧
    (onmessage initialHookState
        (some (.hand_data Option.none [⟨0, 0, 0⟩] .none (0, 0) false 0 0))).parseErrors
      = 0 := by
  decide

/-- C5 (amended): the dispatcher performs no landmark-length
validation: the stored list is exactly the message's list whatever its
length; the only frames discarded and logged are those that fail to
parse, which leave every other field unchanged and never crash the
dispatcher. The 0-or-21 cardinality is a backend guarantee, not
client-enforced. -/
theorem landmarks_stored_verbatim :
    (∀ (s : HookState) img lms g mp p fps ts,
       (onmessage s (some (.hand_data img lms g mp p fps ts))).landmarks = lms) ∧
    (∀ s : HookState,
       onmessage s Option.none = { s with parseErrors := s.parseErrors + 1 }) :=
  ⟨fun _ _ _ _ _ _ _ _ => rfl, fun _ => rfl⟩

/-- C6 (counterexample): teardown of the gate at 1000 ms does not
cancel the pending classification timeout: right after teardown no
decision has been sent and a timer is still pending with the listener
already removed, and letting the run continue the stale timers fire and
send a decision for the superseded report. -/
theorem stale_timer_fires_cex :
    (gateExec 85 true [(1000, .unmount)] 1000).decisions = [] ∧
    (gateExec 85 true [(1000, .unmount)] 1000).pending ≠ [] ∧
    (gateExec 85 true [(1000, .unmount)] 1000).listenerAttached = false ∧
    (gateExec 85 true [(1000, .unmount)] 10000).decisions = [true] := by
  decide

/-- C6 (amended): teardown runs the effect cleanup, which removes only
the keydown listener; the presentation-hold timeouts are never stored
or cleared, so teardown leaves the pending timers exactly as they were,
the stale timers still fire and send their decision, and only later
keydown events are ignored. -/
theorem teardown_cancels_only_listener (total : ℚ) :
    (gateExec total true [(1000, .unmount)] 1000).listenerAttached = false ∧
    (gateExec total true [(1000, .unmount)] 1000).pending =
      (gateExec total true [] 1000).pending ∧
    (gateExec total true [(1000, .unmount)] 10000).decisions.length = 1 ∧
    gateExec total true [(1000, .unmount), (2000, .keydown true "Enter")] 10000 =
      gateExec total true [(1000, .unmount)] 10000 := by
  rcases le_or_lt PASS_SCORE total with h | h
  · unfold gateExec
    rw [gateInit_pass total h]
    decide
  · unfold gateExec
    rw [gateInit_fail total h]
    decide

/-- C7 (counterexample): a hand_data message dispatched after
disconnect() has cleared the handle still mutates the client state: the
handler installed on the socket never consults the handle. -/
theorem message_after_disconnect_mutates_cex :
    onmessage
        (disconnect { initialHookState with
                        connectionState := .connected, wsRef := some ⟨.OPEN⟩ })
        (some (.hand_data Option.none [⟨8, 1/2, 1/2⟩] .click (0, 0) false 30 0))
      ≠ disconnect { initialHookState with
                       connectionState := .connected, wsRef := some ⟨.OPEN⟩ } := by
  decide

/-- C7 (amended): the message handler never reads the transport handle:
a message delivered after disconnect() has cleared the handle is
processed exactly as one delivered while connected — the same mutations
happen, with only the handle field staying cleared. -/
theorem onmessage_ignores_handle :
    ∀ (s : HookState) (frame : Option WebSocketMessage),
      onmessage { s with wsRef := Option.none } frame =
        { onmessage s frame with wsRef := Option.none } := by
  intro s frame
  cases frame with
  | none => rfl
  | some m =>
      cases m with
      | hand_data img lms g mp p fps ts =>
          cases img with
          | none => rfl
          | some i =>
              by_cases hi : i = "" <;>
                simp [onmessage, imageOf, applyImage, hi]
      | face_data img st stt dr tr fr fps =>
          cases img with
          | none => rfl
          | some i =>
              by_cases hi : i = "" <;>
                simp [onmessage, imageOf, applyImage, hi]
      | other img =>
          cases img with
          | none => rfl
          | some i =>
              by_cases hi : i = "" <;>
                simp [onmessage, imageOf, applyImage, hi]

/-- C8 (counterexample): at score 40 the FACE_SCANNING transition does
happen when the decision call succeeds, but when the call fails the
failure is only logged and the transition — sequenced after the awaited
call — never occurs: the stage stays FACE_REPORT, refuting that the
transition is independent of the call succeeding. -/
theorem retry_transition_lost_on_netfail_cex :
    (gateExec 40 true [] 10000).stageLog = [AppStage.FACE_SCANNING] ∧
    (gateExec 40 false [] 10000).decisionFailures = 1 ∧
    (gateExec 40 false [] 10000).stageLog = [] ∧
    (gateExec 40 false [] 10000).stage = AppStage.FACE_REPORT := by
  decide

/-- C8 (amended): when the decision call fails, the failure is logged
and no stage transition occurs at the decision point: the retry-path
setStage(FACE_SCANNING) is sequenced after the awaited call and is
skipped on failure, and the approve path issues no setStage at all, so
the stage stays FACE_REPORT with an empty transition log. -/
theorem netfail_logged_no_transition (total : ℚ) :
    (gateExec total false [] 10000).decisions.length = 1 ∧
    (gateExec total false [] 10000).decisionFailures = 1 ∧
    (gateExec total false [] 10000).stageLog = [] ∧
    (gateExec total false [] 10000).stage = AppStage.FACE_REPORT := by
  rcases le_or_lt PASS_SCORE total with h | h
  · unfold gateExec
    rw [gateInit_pass total h]
    decide
  · unfold gateExec
    rw [gateInit_fail total h]
    decide

/-- C9: connect() is a no-op while the handle is already OPEN or
CONNECTING (no state field changes, no second channel), and
disconnect() is a no-op while the handle is already cleared. -/
theorem connect_disconnect_idempotent :
    (∀ (s : HookState) (h : WSHandle), s.wsRef = some h →
       h.readyState = .OPEN ∨ h.readyState = .CONNECTING → connect s = s) ∧
    (∀ s : HookState, s.wsRef = Option.none → disconnect s = s) := by
  constructor
  · intro s h hws hrs
    unfold connect
    rw [hws]
    simp [hrs]
  · intro s hws
    unfold disconnect
    rw [hws]

/-- C9 (witness): idempotence at a connected state and at the initial
disconnected state. -/
theorem connect_disconnect_idempotent_witness :
    connect { initialHookState with
                connectionState := .connected, wsRef := some ⟨.OPEN⟩ } =
      { initialHookState with
          connectionState := .connected, wsRef := some ⟨.OPEN⟩ } ∧
    disconnect initialHookState = initialHookState :=
  ⟨connect_disconnect_idempotent.1 _ ⟨.OPEN⟩ rfl (Or.inl rfl),
   connect_disconnect_idempotent.2 _ rfl⟩

/-- C10 (counterexample): a frame with an unrecognized type tag that
carries an image field does mutate the client state: the image
pass-through runs before the tag discrimination, so currentImage is
updated from the initial absent value. -/
theorem unknown_tag_image_mutation_cex :
    initialHookState.currentImage = Option.none ∧
    (onmessage initialHookState (some (.other (some "abc")))).currentImage =
      some "data:image/jpeg;base64,abc" :=
  ⟨rfl, rfl⟩

/-- C10 (amended): a frame with an unrecognized tag is ignored by the
tag dispatch, but the image pass-through precedes the discrimination:
every field except currentImage is unchanged; a frame without an image
(or with the falsy empty-string image) leaves the state fully
unchanged, while a non-empty image field still updates currentImage. -/
theorem unknown_tag_amended :
    ∀ (s : HookState) (img : Option String),
      ((onmessage s (some (.other img))).landmarks = s.landmarks ∧
       (onmessage s (some (.other img))).gesture = s.gesture ∧
       (onmessage s (some (.other img))).faceData = s.faceData ∧
       (onmessage s (some (.other img))).fps = s.fps ∧
       (onmessage s (some (.other img))).mousePosition = s.mousePosition ∧
       (onmessage s (some (.other img))).connectionState = s.connectionState ∧
       (onmessage s (some (.other img))).error = s.error ∧
       (onmessage s (some (.other img))).wsRef = s.wsRef ∧
       (onmessage s (some (.other img))).parseErrors = s.parseErrors) ∧
      onmessage s (some (.other Option.none)) = s ∧
      ∀ i, (onmessage s (some (.other (some i)))).currentImage =
        if i = "" then s.currentImage
        else some (String.append "data:image/jpeg;base64," i) := by
  intro s img
  refine ⟨?_, rfl, ?_⟩
  · have hp := applyImage_preserves s img
    exact ⟨hp.1, hp.2.2.1, hp.2.1, hp.2.2.2.2.2.1, hp.2.2.2.2.1,
           hp.2.2.2.1, hp.2.2.2.2.2.2.1, hp.2.2.2.2.2.2.2.1,
           hp.2.2.2.2.2.2.2.2⟩
  · intro i
    by_cases hi : i = "" <;> simp [onmessage, imageOf, applyImage, hi]

end AirMouse
